import Mathlib

set_option maxRecDepth 4000

/-!
Verification of the mcp-atlassian-ib translation/orchestration layer.

The Python sources under `src/mcp_atlassian` (types.py, confluence.py,
jira.py, server.py) are shallowly embedded below.  JSON-like values that
flow through tool arguments, issue fields and document metadata are
modelled by `JsonVal`; Python dicts are association lists preserving
insertion order, with `dictSet` mirroring dict item assignment.  Remote
collaborator calls (the Confluence/Jira REST clients) are modelled as
explicit inputs of type `Option`/`Except`: `Except.error` stands for a
raised transport/authorization exception, `Option` for a possibly-falsy
return value.  Raised Python exceptions are `Except.error` carrying the
exception message.
-/

/-- JSON-like values: tool arguments, issue field values, metadata values. -/
inductive JsonVal where
  | str : String → JsonVal
  | num : Int → JsonVal
  | bool : Bool → JsonVal
  | null : JsonVal
  | arr : List JsonVal → JsonVal
  | obj : List (String × JsonVal) → JsonVal

/-- Association-list lookup, mirroring Python dict `.get`. -/
def alookup {α : Type} : List (String × α) → String → Option α
  | [], _ => none
  | (k, v) :: rest, key => if k = key then some v else alookup rest key

/-- Python dict item assignment `d[k] = v`: overwrite in place if the key
exists (keeping its position), otherwise append. -/
def dictSet {α : Type} (d : List (String × α)) (k : String) (v : α) :
    List (String × α) :=
  if (d.map Prod.fst).contains k then
    d.map (fun p => if p.1 = k then (k, v) else p)
  else
    d ++ [(k, v)]

/-- `Document` from types.py: content plus flat metadata. -/
structure Document where
  page_content : String
  metadata : List (String × JsonVal)

/-- `ConfluencePageUpdate` from types.py. -/
structure ConfluencePageUpdate where
  page_id : String
  title : String
  content : String
  version : Int

/-- `JiraIssueCreate` from types.py (the validated value). -/
structure JiraIssueCreate where
  project_key : String
  summary : String
  description : String
  issue_type : String
  epic_link : Option String
  custom_fields : List (String × JsonVal)

/-- `JiraIssueUpdate` from types.py. -/
structure JiraIssueUpdate where
  issue_key : String
  fields : List (String × JsonVal)

/-- Python `self.custom_fields or {}`: `None` (and an empty dict, which is
already empty) normalizes to the empty dict. -/
def pyOrEmptyDict (cf : Option (List (String × JsonVal))) :
    List (String × JsonVal) :=
  match cf with
  | none => []
  | some l => l

/-- `JiraIssueCreate.__post_init__` from types.py, as a smart constructor:
construction either raises (returns `Except.error`) or yields the complete
validated value. -/
def mkJiraIssueCreate (project_key summary description issue_type : String)
    (epic_link : Option String)
    (custom_fields : Option (List (String × JsonVal))) :
    Except String JiraIssueCreate :=
  if ¬(issue_type = "Epic" ∨ issue_type = "Story") then
    Except.error "issue_type must be either 'Epic' or 'Story'"
  else if issue_type = "Epic" ∧ epic_link ≠ none then
    Except.error "Epic issues cannot have an epic_link"
  else
    Except.ok
      { project_key := project_key
        summary := summary
        description := description
        issue_type := issue_type
        epic_link := epic_link
        custom_fields := pyOrEmptyDict custom_fields }

/-- C3: an issue-create request constructs successfully iff the issue type
is Epic or Story and it is not an Epic carrying an epic-link; failure
yields no partial object (the `Except.error` carries only a message); and
when the custom-fields argument is absent the constructed request's
custom-fields mapping is empty. -/
theorem jiraIssueCreate_construction_iff (pk s d it : String)
    (el : Option String) (cf : Option (List (String × JsonVal))) :
    ((∃ r, mkJiraIssueCreate pk s d it el cf = Except.ok r) ↔
      ((it = "Epic" ∨ it = "Story") ∧ ¬(it = "Epic" ∧ el ≠ none))) ∧
    (cf = none →
      ∀ r, mkJiraIssueCreate pk s d it el cf = Except.ok r →
        r.custom_fields = []) := by
  constructor
  · constructor
    · rintro ⟨r, hr⟩
      unfold mkJiraIssueCreate at hr
      split_ifs at hr with h1 h2
      exact ⟨h1, h2⟩
    · rintro ⟨hAB, hNE⟩
      unfold mkJiraIssueCreate
      rw [if_neg (not_not.mpr hAB), if_neg hNE]
      exact ⟨_, rfl⟩
  · rintro rfl r hr
    unfold mkJiraIssueCreate at hr
    split_ifs at hr
    cases hr
    rfl

/-- Witness for C3 at a concrete input: a Story with no epic link and
absent custom fields constructs, and its custom-fields mapping is empty. -/
theorem jiraIssueCreate_construction_iff_witness :
    (∃ r, mkJiraIssueCreate "DEV" "X" "" "Story" none none = Except.ok r) ∧
    (∀ r, mkJiraIssueCreate "DEV" "X" "" "Story" none none = Except.ok r →
      r.custom_fields = []) := by
  have h := jiraIssueCreate_construction_iff "DEV" "X" "" "Story" none none
  exact ⟨h.1.mpr ⟨Or.inr rfl, by simp⟩, fun r hr => h.2 rfl r hr⟩

/-- Outcome of a manager operation that may issue a remote write: the
returned/raised result together with whether the mutating remote call was
issued. -/
structure UpdatePageOutcome where
  result : Except String Document
  writeIssued : Bool

/-- `ConfluenceManager.update_page` from confluence.py.  The remote fetch
`confluence.get_page_by_id(page_id, expand="version")` is supplied as
`fetch` (`Except.error` = the client raised; `Except.ok none` = falsy
page; `Except.ok (some v)` = page with current version `v`), and the
document produced by the write-then-refetch on the success path is
supplied as `updatedDoc`.  The surrounding try/except logs and re-raises,
so raised errors propagate unchanged. -/
def ConfluenceManager.update_page (req : ConfluencePageUpdate)
    (fetch : Except String (Option Int)) (updatedDoc : Document) :
    UpdatePageOutcome :=
  match fetch with
  | Except.error e => { result := Except.error e, writeIssued := false }
  | Except.ok none =>
      { result := Except.error ("Page " ++ req.page_id ++ " does not exist")
        writeIssued := false }
  | Except.ok (some cur) =>
      if cur ≠ req.version then
        { result := Except.error ("Version conflict: current version is " ++
            toString cur ++ ", but update requested for version " ++
            toString req.version)
          writeIssued := false }
      else
        { result := Except.ok updatedDoc, writeIssued := true }

/-- C2: when the caller-supplied version differs from the current remote
version, `update_page` raises a version-conflict error carrying both
version numbers and issues no remote write; when the versions are exactly
equal, the update proceeds (the write is issued and the refreshed document
is returned). -/
theorem update_page_version_guard (req : ConfluencePageUpdate) (cur : Int)
    (doc : Document) :
    (cur ≠ req.version →
      (ConfluenceManager.update_page req (Except.ok (some cur)) doc).result =
        Except.error ("Version conflict: current version is " ++
          toString cur ++ ", but update requested for version " ++
          toString req.version) ∧
      (ConfluenceManager.update_page req (Except.ok (some cur))
        doc).writeIssued = false) ∧
    (cur = req.version →
      (ConfluenceManager.update_page req (Except.ok (some cur)) doc).result =
        Except.ok doc ∧
      (ConfluenceManager.update_page req (Except.ok (some cur))
        doc).writeIssued = true) := by
  constructor
  · intro h
    simp [ConfluenceManager.update_page, h]
  · intro h
    simp [ConfluenceManager.update_page, h]

/-- Witness for C2 at a concrete input: updating page "123" expecting
version 1 while the remote is at version 2 fails with the conflict message
naming both versions, and no write is issued. -/
theorem update_page_version_guard_witness :
    (ConfluenceManager.update_page ⟨"123", "T", "b", 1⟩
        (Except.ok (some 2)) ⟨"", []⟩).result =
      Except.error
        "Version conflict: current version is 2, but update requested for version 1" ∧
    (ConfluenceManager.update_page ⟨"123", "T", "b", 1⟩
        (Except.ok (some 2)) ⟨"", []⟩).writeIssued = false := by
  have h := (update_page_version_guard ⟨"123", "T", "b", 1⟩ 2 ⟨"", []⟩).1
    (by decide)
  exact ⟨h.1.trans (congrArg Except.error (by decide)), h.2⟩

/-- The effective limit computed by the `confluence_search` branch of
`call_tool` in server.py: `min(int(arguments.get("limit", 10)), 50)`. -/
def confluenceSearchLimit (limit : Option Int) : Int :=
  min (limit.getD 10) 50

/-- The effective limit computed by the `jira_search` branch of
`call_tool` in server.py: `min(int(arguments.get("limit", 10)), 50)`. -/
def jiraSearchLimit (limit : Option Int) : Int :=
  min (limit.getD 10) 50

/-- The effective limit computed by the `jira_get_project_issues` branch
of `call_tool` in server.py: `min(int(arguments.get("limit", 10)), 50)`. -/
def jiraGetProjectIssuesLimit (limit : Option Int) : Int :=
  min (limit.getD 10) 50

/-- Counterexample to C1 as stated: a supplied limit of 0 (below the lower
bound 1) is not clamped up to 1 by any of the three search/list tool
branches — the effective limit is 0, outside [1, 50]. -/
theorem limit_zero_not_clamped_counterexample :
    confluenceSearchLimit (some 0) = 0 ∧
    jiraSearchLimit (some 0) = 0 ∧
    jiraGetProjectIssuesLimit (some 0) = 0 ∧
    ¬(1 ≤ confluenceSearchLimit (some 0) ∧
      confluenceSearchLimit (some 0) ≤ 50) := by
  refine ⟨rfl, rfl, rfl, ?_⟩
  intro h
  exact absurd h.1 (by decide)

/-- C1 (amended): the effective limit of the three search/list tool
branches is `min(limit, 50)` — a missing limit defaults to 10, values
above 50 are clamped down to 50 (so limit=999 is served with 50), and the
effective limit never exceeds 50; but values below 1 pass through
unchanged (only the upper bound is clamped). -/
theorem effective_limit_is_min_with_fifty (l : Int) :
    confluenceSearchLimit (some l) = min l 50 ∧
    jiraSearchLimit (some l) = min l 50 ∧
    jiraGetProjectIssuesLimit (some l) = min l 50 ∧
    confluenceSearchLimit none = 10 ∧
    jiraSearchLimit none = 10 ∧
    jiraGetProjectIssuesLimit none = 10 ∧
    confluenceSearchLimit (some l) ≤ 50 ∧
    (50 ≤ l → confluenceSearchLimit (some l) = 50) ∧
    (l ≤ 50 → confluenceSearchLimit (some l) = l) := by
  refine ⟨rfl, rfl, rfl, rfl, rfl, rfl, min_le_right _ _, ?_, ?_⟩
  · intro h
    exact min_eq_right h
  · intro h
    exact min_eq_left h

/-- Witness for C1 (amended) at limit 999: the effective limit is 50. -/
theorem effective_limit_is_min_with_fifty_witness :
    (50 : Int) ≤ 999 ∧ confluenceSearchLimit (some 999) = 50 := by
  exact ⟨by decide, (effective_limit_is_min_with_fifty 999).2.2.2.2.2.2.2.1
    (by decide)⟩

/-- Python slice `s[:n]` on a string: its first `n` characters. -/
def pySlice (s : String) (n : Nat) : String :=
  String.mk (s.data.take n)

/-- Python `len(s)` on a string: its number of characters. -/
def pyLen (s : String) : Nat :=
  s.data.length

/-- The excerpt built by the `jira_search` branch of `call_tool` in
server.py:
`page_content[:500] + "..." if len(page_content) > 500 else page_content`. -/
def jiraSearchExcerpt (s : String) : String :=
  if pyLen s > 500 then pySlice s 500 ++ "..." else s

/-- C7: the summary excerpt equals the issue's rendered content when that
content is at most 500 characters, and otherwise equals exactly the first
500 characters followed by the ellipsis marker (so 503 characters in
total). -/
theorem jira_search_excerpt_truncation (s : String) :
    (pyLen s ≤ 500 → jiraSearchExcerpt s = s) ∧
    (500 < pyLen s →
      jiraSearchExcerpt s = pySlice s 500 ++ "..." ∧
      pyLen (pySlice s 500) = 500 ∧
      pyLen (jiraSearchExcerpt s) = 503) := by
  constructor
  · intro h
    simp [jiraSearchExcerpt, Nat.not_lt.mpr h]
  · intro h
    have hlen : pyLen (pySlice s 500) = 500 := by
      simp only [pyLen, pySlice, List.length_take]
      exact min_eq_left (Nat.le_of_lt h)
    refine ⟨by simp [jiraSearchExcerpt, h], hlen, ?_⟩
    have hif : jiraSearchExcerpt s = pySlice s 500 ++ "..." := by
      simp [jiraSearchExcerpt, h]
    rw [hif]
    show ((pySlice s 500).data ++ "...".data).length = 503
    rw [List.length_append]
    have h500 : (pySlice s 500).data.length = 500 := hlen
    rw [h500]
    rfl

/-- Witness for C7 at a concrete input: a 600-character content is
rendered as exactly its first 500 characters followed by "...". -/
theorem jira_search_excerpt_truncation_witness :
    500 < pyLen (String.mk (List.replicate 600 'a')) ∧
    jiraSearchExcerpt (String.mk (List.replicate 600 'a')) =
      String.mk (List.replicate 500 'a') ++ "..." ∧
    pyLen (jiraSearchExcerpt (String.mk (List.replicate 600 'a'))) = 503 := by
  have hgt : 500 < pyLen (String.mk (List.replicate 600 'a')) := by
    simp [pyLen]
  have h := (jira_search_excerpt_truncation (String.mk (List.replicate 600 'a'))).2 hgt
  refine ⟨hgt, h.1.trans ?_, h.2.2⟩
  have : pySlice (String.mk (List.replicate 600 'a')) 500 =
      String.mk (List.replicate 500 'a') := by
    simp [pySlice, List.take_replicate]
  rw [this]

/-- Fuel-driven worker for `str.replace`: each step consumes at least one
character, so fuel equal to the string length suffices. -/
def pyReplaceAux (pat repl : List Char) : Nat → List Char → List Char
  | 0, s => s
  | _ + 1, [] => []
  | fuel + 1, c :: rest =>
      if pat ≠ [] ∧ pat.isPrefixOf (c :: rest) then
        repl ++ pyReplaceAux pat repl fuel (List.drop pat.length (c :: rest))
      else
        c :: pyReplaceAux pat repl fuel rest

/-- Python `s.replace(pat, repl)`: replace all non-overlapping occurrences
left to right. -/
def pyReplace (s pat repl : String) : String :=
  String.mk (pyReplaceAux pat.data repl.data s.data.length s.data)

/-- A parsed Python `datetime` value as produced by
`datetime.fromisoformat`: calendar date and time-of-day fields plus an
optional fixed UTC offset in minutes. -/
structure PyDateTime where
  year : Nat
  month : Nat
  day : Nat
  hour : Nat
  minute : Nat
  second : Nat
  microsecond : Nat
  utcoffsetMinutes : Option Int
deriving DecidableEq

/-- Numeric value of an ASCII digit character. -/
def digitVal (c : Char) : Nat :=
  c.toNat - '0'.toNat

/-- Read exactly `n` ASCII digits from the front of the character list,
accumulating their decimal value. -/
def readDigitsAux : Nat → Nat → List Char → Option (Nat × List Char)
  | 0, acc, cs => some (acc, cs)
  | n + 1, acc, cs =>
      match cs with
      | [] => none
      | c :: rest =>
          if c.isDigit then readDigitsAux n (acc * 10 + digitVal c) rest
          else none

/-- Read exactly `n` ASCII digits, returning their value and the rest. -/
def readDigits (n : Nat) (cs : List Char) : Option (Nat × List Char) :=
  readDigitsAux n 0 cs

/-- Expect one specific character at the front. -/
def expectChar (c : Char) : List Char → Option (List Char)
  | [] => none
  | d :: rest => if d = c then some rest else none

/-- Gregorian leap-year rule, as in Python `calendar.isleap`. -/
def isLeapYear (y : Nat) : Bool :=
  (y % 4 == 0 && y % 100 != 0) || y % 400 == 0

/-- Days in a month, as validated by `datetime`. -/
def daysInMonth (y m : Nat) : Nat :=
  if m = 2 then (if isLeapYear y then 29 else 28)
  else if m = 4 ∨ m = 6 ∨ m = 9 ∨ m = 11 then 30
  else 31

/-- Parse the optional fixed UTC offset tail `±HH:MM` of an ISO string;
an empty tail means a naive datetime (`none` offset). -/
def parseTZOffset (cs : List Char) : Option (Option Int) :=
  match cs with
  | [] => some none
  | sign :: rest =>
      if sign = '+' ∨ sign = '-' then
        match readDigits 2 rest with
        | none => none
        | some (h, rest2) =>
            match expectChar ':' rest2 with
            | none => none
            | some rest3 =>
                match readDigits 2 rest3 with
                | none => none
                | some (m, rest4) =>
                    if rest4 = [] ∧ m < 60 then
                      some (some (if sign = '-' then -(h * 60 + m : Int)
                                  else (h * 60 + m : Int)))
                    else none
      else none

/-- Parse an optional fractional-seconds part `.fff` or `.ffffff`,
returning microseconds. -/
def parseFraction (cs : List Char) : Option (Nat × List Char) :=
  match cs with
  | '.' :: rest =>
      (match readDigits 6 rest with
       | some (us, rest2) => some (us, rest2)
       | none =>
           match readDigits 3 rest with
           | some (ms, rest2) => some (ms * 1000, rest2)
           | none => none)
  | _ => some (0, cs)

/-- Parse the time part `HH:MM[:SS[.fff|.ffffff]][±HH:MM]` of an ISO
string, validating the field ranges. -/
def parseTimePart (cs : List Char) :
    Option (Nat × Nat × Nat × Nat × Option Int) :=
  match readDigits 2 cs with
  | none => none
  | some (h, r1) =>
      match expectChar ':' r1 with
      | none => none
      | some r2 =>
          match readDigits 2 r2 with
          | none => none
          | some (mi, r3) =>
              match expectChar ':' r3 with
              | some r4 =>
                  (match readDigits 2 r4 with
                   | none => none
                   | some (sec, r5) =>
                       match parseFraction r5 with
                       | none => none
                       | some (us, r6) =>
                           match parseTZOffset r6 with
                           | none => none
                           | some off =>
                               if h < 24 ∧ mi < 60 ∧ sec < 60 then
                                 some (h, mi, sec, us, off)
                               else none)
              | none =>
                  match parseTZOffset r3 with
                  | none => none
                  | some off =>
                      if h < 24 ∧ mi < 60 then some (h, mi, 0, 0, off)
                      else none

/-- `datetime.fromisoformat` as invoked here (after the `Z` replacement):
parse `YYYY-MM-DD`, optionally followed by one separator character and a
time part, validating the calendar fields; `none` means the Python call
raises `ValueError`. -/
def pyFromisoformat (s : String) : Option PyDateTime :=
  match readDigits 4 s.data with
  | none => none
  | some (y, r1) =>
      match expectChar '-' r1 with
      | none => none
      | some r2 =>
          match readDigits 2 r2 with
          | none => none
          | some (mo, r3) =>
              match expectChar '-' r3 with
              | none => none
              | some r4 =>
                  match readDigits 2 r4 with
                  | none => none
                  | some (d, r5) =>
                      if ¬(1 ≤ y ∧ 1 ≤ mo ∧ mo ≤ 12 ∧ 1 ≤ d ∧
                            d ≤ daysInMonth y mo) then none
                      else
                        match r5 with
                        | [] => some ⟨y, mo, d, 0, 0, 0, 0, none⟩
                        | _sep :: rest =>
                            match parseTimePart rest with
                            | none => none
                            | some (h, mi, sec, us, off) =>
                                some ⟨y, mo, d, h, mi, sec, us, off⟩

/-- Left-pad a rendered number with zeros to width `w`. -/
def padZeros (w : Nat) (s : String) : String :=
  String.mk (List.replicate (w - s.length) '0') ++ s

/-- `strftime("%Y-%m-%d")`: render only the calendar-date fields of the
parsed datetime, discarding time-of-day and offset. -/
def pyStrftimeYMD (dt : PyDateTime) : String :=
  padZeros 4 (toString dt.year) ++ "-" ++ padZeros 2 (toString dt.month) ++
    "-" ++ padZeros 2 (toString dt.day)

/-- The display-date normalization as written inline in jira.py
`get_issue` (issue created date and comment dates):
`datetime.fromisoformat(ts.replace("Z", "+00:00")).strftime("%Y-%m-%d")`;
`none` means the Python expression raises. -/
def formatDisplayDate (ts : String) : Option String :=
  (pyFromisoformat (pyReplace ts "Z" "+00:00")).map pyStrftimeYMD

/-- A possibly-absent string rendered into JSON metadata (Python `None`
becomes JSON null). -/
def jsonOfOptStr : Option String → JsonVal
  | some s => JsonVal.str s
  | none => JsonVal.null

/-- A possibly-absent integer rendered into JSON metadata. -/
def jsonOfOptInt : Option Int → JsonVal
  | some n => JsonVal.num n
  | none => JsonVal.null

/-- Python truthiness of a JSON-like value. -/
def pyTruthy : JsonVal → Bool
  | JsonVal.str s => s != ""
  | JsonVal.num n => n != 0
  | JsonVal.bool b => b
  | JsonVal.null => false
  | JsonVal.arr l => !l.isEmpty
  | JsonVal.obj l => !l.isEmpty

/-- Python truthiness of an optional string (`None` and `""` are falsy). -/
def pyTruthyStrOpt : Option String → Bool
  | none => false
  | some s => s != ""

/-- Python `str()` as used in f-string interpolation of field values.
Container rendering is abbreviated; no claim depends on it. -/
def pyStr : JsonVal → String
  | JsonVal.str s => s
  | JsonVal.num n => toString n
  | JsonVal.bool b => if b then "True" else "False"
  | JsonVal.null => "None"
  | JsonVal.arr _ => "[...]"
  | JsonVal.obj _ => "\x7b...\x7d"

/-- Python `s.lower()` (ASCII case folding suffices here). -/
def pyLower (s : String) : String :=
  String.mk (s.data.map Char.toLower)

/-- Python `s.rstrip(c)`. -/
def pyRstrip (c : Char) (s : String) : String :=
  String.mk ((s.data.reverse.dropWhile (fun d => d = c)).reverse)

/-- The typed shape of the remote page payload used by
`ConfluenceManager.get_page_content` (expand `body.storage,version,space`);
`.get` defaults on space key/name are already folded into the strings. -/
structure RemotePageFull where
  title : String
  bodyStorageValue : String
  spaceKey : String
  spaceName : String
  versionNumber : Option Int
  versionWhen : Option String
  versionByDisplayName : Option String

/-- `ConfluenceManager.get_page_content` from confluence.py.  The
text-conversion collaborator result
`preprocessor.process_html_content(content, space_key)` is supplied as
the pair `processed = (processed_html, processed_markdown)`. -/
def ConfluenceManager.get_page_content (baseUrl page_id : String)
    (page : RemotePageFull) (processed : String × String)
    (clean_html : Bool) : Document :=
  { page_content := if clean_html then processed.2 else processed.1
    metadata :=
      [("page_id", JsonVal.str page_id),
       ("title", JsonVal.str page.title),
       ("version", jsonOfOptInt page.versionNumber),
       ("url", JsonVal.str (baseUrl ++ "/wiki/spaces/" ++ page.spaceKey ++
          "/pages/" ++ page_id)),
       ("space_key", JsonVal.str page.spaceKey),
       ("author_name", jsonOfOptStr page.versionByDisplayName),
       ("space_name", JsonVal.str page.spaceName),
       ("last_modified", jsonOfOptStr page.versionWhen)] }

/-- The class-level seed `CUSTOM_FIELD_MAPPINGS` of `JiraManager` in
jira.py (before the `_init_custom_fields` discovery pass). -/
def JiraManager.CUSTOM_FIELD_MAPPINGS : List (String × String) :=
  [("Epic Name", "customfield_10021"),
   ("Epic Link", "customfield_10019"),
   ("Acceptance Criteria", "customfield_11738"),
   ("Story Points", "customfield_10026")]

/-- `JiraManager._get_custom_field_id`: a dict lookup that logs a warning
and returns the missing value on an unknown name; it never raises. -/
def JiraManager._get_custom_field_id (mappings : List (String × String))
    (field_name : String) : Option String :=
  alookup mappings field_name

/-- `JiraManager._process_custom_fields` from jira.py: translate each
supplied name through the catalog; a name with no (truthy) id is skipped. -/
def JiraManager._process_custom_fields (mappings : List (String × String))
    (custom_fields : List (String × JsonVal)) : List (String × JsonVal) :=
  custom_fields.foldl
    (fun processed p =>
      match JiraManager._get_custom_field_id mappings p.1 with
      | some fid => if fid ≠ "" then dictSet processed fid p.2 else processed
      | none => processed)
    []

/-- The fields dict built by `JiraManager.update_issue` from the request:
a name with a (truthy) catalog id is sent under that id; any other name is
sent lowercased as a standard field. -/
def JiraManager.update_issue_fields (mappings : List (String × String))
    (reqFields : List (String × JsonVal)) : List (String × JsonVal) :=
  reqFields.foldl
    (fun fields p =>
      match JiraManager._get_custom_field_id mappings p.1 with
      | some fid =>
          if fid ≠ "" then dictSet fields fid p.2
          else dictSet fields (pyLower p.1) p.2
      | none => dictSet fields (pyLower p.1) p.2)
    []

/-- Outcome of `JiraManager.update_issue`: the result together with the
fields payload of the PUT call when one was issued. -/
structure UpdateIssueOutcome where
  result : Except String Document
  sentFields : Option (List (String × JsonVal))

/-- `JiraManager.update_issue` from jira.py.  `currentIssue` is the
outcome of `jira.issue(issue_key)` (truthiness only), `putStatus` and
`putResponseText` the response of the PUT, and `refreshed` the outcome of
the final `get_issue` refetch. -/
def JiraManager.update_issue (req : JiraIssueUpdate)
    (mappings : List (String × String))
    (currentIssue : Except String Bool) (putStatus : Nat)
    (putResponseText : String) (refreshed : Except String Document) :
    UpdateIssueOutcome :=
  match currentIssue with
  | Except.error e => { result := Except.error e, sentFields := none }
  | Except.ok false =>
      { result := Except.error ("Issue " ++ req.issue_key ++
          " does not exist")
        sentFields := none }
  | Except.ok true =>
      let fields := JiraManager.update_issue_fields mappings req.fields
      if putStatus ≠ 200 ∧ putStatus ≠ 204 then
        { result := Except.error ("Failed to update issue. Status: " ++
            toString putStatus ++ ", Response: " ++ putResponseText)
          sentFields := some fields }
      else
        { result := refreshed, sentFields := some fields }

/-- `JiraManager._clean_text` from jira.py: falsy text becomes `""`,
otherwise the text-conversion collaborator (`cleanText`) is applied. -/
def JiraManager._clean_text (cleanText : String → String)
    (text : String) : String :=
  if text = "" then "" else cleanText text

/-- `datetime.fromisoformat` with the raised `ValueError` made explicit. -/
def pyFromisoformatE (s : String) : Except String PyDateTime :=
  match pyFromisoformat s with
  | some dt => Except.ok dt
  | none => Except.error ("Invalid isoformat string: \x27" ++ s ++ "\x27")

/-- One raw comment of the remote issue payload. -/
structure RemoteComment where
  body : String
  created : String
  authorDisplayName : Option String

/-- The typed shape of `issue["fields"]` consumed by
`JiraManager.get_issue`; `customFields` holds the `customfield_*`-keyed
entries of the raw fields dict. -/
structure RemoteIssueFields where
  summary : Option String
  description : Option String
  issuetypeName : String
  statusName : String
  created : String
  priorityName : Option String
  comments : Option (List RemoteComment)
  customFields : List (String × JsonVal)

/-- One iteration of the comments loop in `get_issue`: clean the body,
normalize the created date, default the author to "Unknown".  Returns
`(body, created, author)`. -/
def formatIssueComment (cleanText : String → String) (c : RemoteComment) :
    Except String (String × String × String) := do
  let processed := JiraManager._clean_text cleanText c.body
  let dt ← pyFromisoformatE (pyReplace c.created "Z" "+00:00")
  Except.ok (processed, pyStrftimeYMD dt, c.authorDisplayName.getD "Unknown")

/-- The comments block of `get_issue`: when the fields dict has a
`comment` entry, process each comment, else use the empty list. -/
def getIssueComments (cleanText : String → String)
    (comments : Option (List RemoteComment)) :
    Except String (List (String × String × String)) :=
  match comments with
  | some cs => cs.mapM (formatIssueComment cleanText)
  | none => Except.ok []

/-- The metadata dict built at the end of `JiraManager.get_issue`. -/
def mkIssueMetadata (issue_key title itype status created_date priority
    link : String) (custom_fields : List (String × JsonVal)) :
    List (String × JsonVal) :=
  [("key", JsonVal.str issue_key),
   ("title", JsonVal.str title),
   ("type", JsonVal.str itype),
   ("status", JsonVal.str status),
   ("created_date", JsonVal.str created_date),
   ("priority", JsonVal.str priority),
   ("link", JsonVal.str link),
   ("custom_fields", JsonVal.obj custom_fields)]

/-- The custom-fields dict assembled by `get_issue`: for each catalog
entry whose id occurs in the raw fields dict, record the display name with
the raw value. -/
def getIssueCustomFields (mappings : List (String × String))
    (rawCustomFields : List (String × JsonVal)) : List (String × JsonVal) :=
  mappings.foldl
    (fun acc p =>
      match alookup rawCustomFields p.2 with
      | some v => dictSet acc p.1 v
      | none => acc)
    []

/-- The document returned by a successful `get_issue`: the structured
multi-section text block plus the streamlined metadata. -/
def mkIssueDocument (issue_key : String) (fields : RemoteIssueFields)
    (description : String)
    (comments : List (String × String × String)) (formatted : String)
    (custom_fields : List (String × JsonVal)) (link : String) : Document :=
  let content := "Issue: " ++ issue_key ++ "\nTitle: " ++
    fields.summary.getD "" ++ "\nType: " ++ fields.issuetypeName ++
    "\nStatus: " ++ fields.statusName ++ "\nCreated: " ++ formatted ++
    "\n\nDescription:\n" ++ description ++ "\n\n"
  let content :=
    if custom_fields.isEmpty then content
    else
      content ++ "Custom Fields:\n" ++
        custom_fields.foldl
          (fun acc p =>
            if pyTruthy p.2 then acc ++ p.1 ++ ": " ++ pyStr p.2 ++ "\n"
            else acc)
          "" ++ "\n"
  let content := content ++ "Comments:\n" ++
    String.intercalate "\n"
      (comments.map (fun c => c.2.1 ++ " - " ++ c.2.2 ++ ": " ++ c.1))
  { page_content := content
    metadata := mkIssueMetadata issue_key (fields.summary.getD "")
      fields.issuetypeName fields.statusName formatted
      (fields.priorityName.getD "None") link custom_fields }

/-- `JiraManager.get_issue` from jira.py.  `fetch` is the outcome of
`jira.issue(issue_key)`, `cleanText` the text-conversion collaborator,
`mappings` the field catalog; the surrounding try/except logs and
re-raises, so errors propagate unchanged. -/
def JiraManager.get_issue (baseUrl : String)
    (mappings : List (String × String)) (cleanText : String → String)
    (issue_key : String) (fetch : Except String RemoteIssueFields) :
    Except String Document := do
  let fields ← fetch
  let description :=
    match fields.description with
    | some t => JiraManager._clean_text cleanText t
    | none => ""
  let comments ← getIssueComments cleanText fields.comments
  let createdDt ← pyFromisoformatE (pyReplace fields.created "Z" "+00:00")
  let formatted := pyStrftimeYMD createdDt
  let custom_fields := getIssueCustomFields mappings fields.customFields
  Except.ok (mkIssueDocument issue_key fields description comments formatted
    custom_fields (pyRstrip '/' baseUrl ++ "/browse/" ++ issue_key))

/-- The typed shape of one raw comment consumed by the loop of
`ConfluenceManager.get_page_comments` (expand `body.view.value,version`);
the author is taken from `version.by`. -/
structure RemotePageComment where
  id : String
  bodyViewValue : String
  versionWhen : Option String
  versionByDisplayName : Option String

/-- `ConfluenceManager.get_page_comments` from confluence.py: one
document per raw comment.  `page_id`, `space_key` and `space_name` come
from the preceding page fetch; the text-conversion collaborator
`preprocessor.process_html_content(body, space_key)` is supplied as the
function `processHtml` returning the `(processed_html,
processed_markdown)` pair. -/
def ConfluenceManager.get_page_comments (page_id space_key
    space_name : String) (processHtml : String → String × String)
    (comments : List RemotePageComment) (clean_html : Bool) :
    List Document :=
  comments.map (fun comment =>
    let processed := processHtml comment.bodyViewValue
    { page_content := if clean_html then processed.2 else processed.1
      metadata :=
        [("page_id", JsonVal.str page_id),
         ("comment_id", JsonVal.str comment.id),
         ("last_modified", jsonOfOptStr comment.versionWhen),
         ("type", JsonVal.str "comment"),
         ("author_name", jsonOfOptStr comment.versionByDisplayName),
         ("space_key", JsonVal.str space_key),
         ("space_name", JsonVal.str space_name)] })

/-- Counterexample to C6 as stated: the last-modified values written into
metadata by `get_page_content` and `get_page_comments` are the raw remote
timestamp, not the normalized calendar date — `"2024-01-05T10:00:00Z"` is
stored verbatim instead of `"2024-01-05"`, for the page and for a page
comment alike. -/
theorem confluence_last_modified_raw_counterexample :
    alookup (ConfluenceManager.get_page_content "https://c" "1"
        ⟨"T", "b", "DEV", "Dev", some 1, some "2024-01-05T10:00:00Z",
          some "A"⟩ ("h", "m") true).metadata "last_modified" =
      some (JsonVal.str "2024-01-05T10:00:00Z") ∧
    (ConfluenceManager.get_page_comments "1" "DEV" "Dev"
        (fun b => (b, b))
        [⟨"9", "hi", some "2024-01-05T10:00:00Z", some "A"⟩] true).map
      (fun d => alookup d.metadata "last_modified") =
      [some (JsonVal.str "2024-01-05T10:00:00Z")] ∧
    JsonVal.str "2024-01-05T10:00:00Z" ≠ JsonVal.str "2024-01-05" := by
  refine ⟨rfl, rfl, ?_⟩
  intro h
  injection h with h2
  exact absurd h2 (by decide)

/-- C6 (amended): the display dates produced in jira.py (issue created
date and comment dates) parse the ISO timestamp with a trailing `Z`
treated as `+00:00` and render only the calendar date `YYYY-MM-DD`,
discarding time-of-day and timezone; the issue document's `created_date`
metadata is that rendering; but the Confluence last-modified metadata —
written by `get_page_content` for a page and by `get_page_comments` for
each page comment — is the raw remote timestamp passed through
unnormalized. -/
theorem display_date_normalization (ts : String) (dt : PyDateTime)
    (h : pyFromisoformat (pyReplace ts "Z" "+00:00") = some dt) :
    formatDisplayDate ts = some (pyStrftimeYMD dt) ∧
    pyStrftimeYMD dt = padZeros 4 (toString dt.year) ++ "-" ++
      padZeros 2 (toString dt.month) ++ "-" ++ padZeros 2 (toString dt.day) ∧
    (∀ (ct : String → String) (c : RemoteComment),
      c.created = ts →
      formatIssueComment ct c = Except.ok
        (JiraManager._clean_text ct c.body, pyStrftimeYMD dt,
          c.authorDisplayName.getD "Unknown")) ∧
    (∀ (baseUrl : String) (mappings : List (String × String))
      (ct : String → String) (key : String) (fields : RemoteIssueFields)
      (cmts : List (String × String × String)),
      fields.created = ts →
      getIssueComments ct fields.comments = Except.ok cmts →
      ∃ doc, JiraManager.get_issue baseUrl mappings ct key
          (Except.ok fields) = Except.ok doc ∧
        alookup doc.metadata "created_date" =
          some (JsonVal.str (pyStrftimeYMD dt))) ∧
    (∀ (baseUrl page_id : String) (page : RemotePageFull)
      (proc : String × String) (ch : Bool),
      alookup (ConfluenceManager.get_page_content baseUrl page_id page
        proc ch).metadata "last_modified" =
        some (jsonOfOptStr page.versionWhen)) ∧
    (∀ (page_id space_key space_name : String)
      (processHtml : String → String × String)
      (comments : List RemotePageComment) (ch : Bool),
      ∀ d ∈ ConfluenceManager.get_page_comments page_id space_key
          space_name processHtml comments ch,
        ∃ c ∈ comments,
          alookup d.metadata "last_modified" =
            some (jsonOfOptStr c.versionWhen)) := by
  have okBind : ∀ {α β : Type} (a : α) (f : α → Except String β),
      (Except.ok a >>= f) = f a := fun a f => rfl
  refine ⟨by simp [formatDisplayDate, h], rfl, ?_, ?_, ?_, ?_⟩
  · intro ct c hc
    unfold formatIssueComment
    rw [hc]
    simp only [pyFromisoformatE, h, okBind]
  · intro baseUrl mappings ct key fields cmts hcreated hcm
    have hE : pyFromisoformatE (pyReplace fields.created "Z" "+00:00") =
        Except.ok dt := by
      rw [hcreated]
      simp [pyFromisoformatE, h]
    refine ⟨mkIssueDocument key fields
      (match fields.description with
       | some t => JiraManager._clean_text ct t
       | none => "") cmts (pyStrftimeYMD dt)
      (getIssueCustomFields mappings fields.customFields)
      (pyRstrip '/' baseUrl ++ "/browse/" ++ key), ?_, ?_⟩
    · simp only [JiraManager.get_issue, okBind, hcm, hE]
    · rfl
  · intro baseUrl page_id page proc ch
    rfl
  · intro page_id space_key space_name processHtml comments ch d hd
    obtain ⟨c, hc, rfl⟩ := List.mem_map.mp hd
    exact ⟨c, hc, rfl⟩

/-- Witness for C6 (amended) at the concrete timestamp of the spec:
`"2024-01-05T10:00:00Z"` parses with offset `+00:00` and normalizes to
`"2024-01-05"`. -/
theorem display_date_normalization_witness :
    pyFromisoformat (pyReplace "2024-01-05T10:00:00Z" "Z" "+00:00") =
      some ⟨2024, 1, 5, 10, 0, 0, 0, some 0⟩ ∧
    formatDisplayDate "2024-01-05T10:00:00Z" = some "2024-01-05" := by
  have hp : pyFromisoformat (pyReplace "2024-01-05T10:00:00Z" "Z" "+00:00") =
      some ⟨2024, 1, 5, 10, 0, 0, 0, some 0⟩ := by decide
  have h := display_date_normalization "2024-01-05T10:00:00Z"
    ⟨2024, 1, 5, 10, 0, 0, 0, some 0⟩ hp
  exact ⟨hp, h.1.trans (congrArg some (by decide))⟩

/-- Folding over a filtered list equals folding over the whole list when
the step function ignores exactly the filtered-out elements. -/
theorem foldl_filter_of_skipped {α β : Type} (f : β → α → β) (p : α → Bool)
    (h : ∀ acc x, p x = false → f acc x = acc) :
    ∀ (l : List α) (a : β), (l.filter p).foldl f a = l.foldl f a := by
  intro l
  induction l with
  | nil => intro a; rfl
  | cons x xs ih =>
      intro a
      by_cases hp : p x
      · simp [List.filter_cons, hp, ih]
      · have hp0 : p x = false := by simpa using hp
        simp [List.filter_cons, hp0, ih, h a x hp0]

/-- Counterexample to C5 as stated: on an issue update, a custom-field
name that fails to resolve ("Bogus Field" is not in the catalog) is not
dropped — it appears, lowercased, in the fields payload sent to the
remote service. -/
theorem update_unknown_field_not_dropped_counterexample :
    JiraManager._get_custom_field_id JiraManager.CUSTOM_FIELD_MAPPINGS
      "Bogus Field" = none ∧
    (JiraManager.update_issue ⟨"PROJ-1", [("Bogus Field", JsonVal.str "v")]⟩
        JiraManager.CUSTOM_FIELD_MAPPINGS (Except.ok true) 204 ""
        (Except.ok ⟨"", []⟩)).sentFields =
      some [("bogus field", JsonVal.str "v")] := by
  exact ⟨rfl, rfl⟩

/-- C5 (amended): on issue creation, custom-field names are translated
through the catalog and a name that fails to resolve is dropped with a
warning — removing all unresolvable entries first changes nothing, and a
single unresolvable entry contributes nothing; on issue update, however,
an unresolvable name is not dropped: it is sent lowercased as a standard
field. -/
theorem custom_field_resolution_policy (mappings : List (String × String))
    (cfs : List (String × JsonVal)) (n : String) (v : JsonVal) :
    (JiraManager._process_custom_fields mappings cfs =
      JiraManager._process_custom_fields mappings
        (cfs.filter (fun p =>
          pyTruthyStrOpt (JiraManager._get_custom_field_id mappings p.1)))) ∧
    (JiraManager._get_custom_field_id mappings n = none →
      JiraManager._process_custom_fields mappings [(n, v)] = [] ∧
      JiraManager.update_issue_fields mappings [(n, v)] =
        [(pyLower n, v)]) := by
  constructor
  · unfold JiraManager._process_custom_fields
    refine (foldl_filter_of_skipped _ _ ?_ cfs []).symm
    intro acc x hx
    cases hl : JiraManager._get_custom_field_id mappings x.1 with
    | none => simp [hl]
    | some fid =>
        rw [hl] at hx
        simp only [pyTruthyStrOpt] at hx
        have : fid = "" := by simpa using hx
        simp [hl, this]
  · intro h
    constructor
    · simp [JiraManager._process_custom_fields, h]
    · simp [JiraManager.update_issue_fields, h, dictSet]

/-- Witness for C5 (amended) at a concrete input: "Bogus Field" does not
resolve against the seed catalog; creation drops it, update sends it
lowercased. -/
theorem custom_field_resolution_policy_witness :
    JiraManager._get_custom_field_id JiraManager.CUSTOM_FIELD_MAPPINGS
      "Bogus Field" = none ∧
    JiraManager._process_custom_fields JiraManager.CUSTOM_FIELD_MAPPINGS
      [("Bogus Field", JsonVal.str "v")] = [] ∧
    JiraManager.update_issue_fields JiraManager.CUSTOM_FIELD_MAPPINGS
      [("Bogus Field", JsonVal.str "v")] =
      [("bogus field", JsonVal.str "v")] := by
  have h := (custom_field_resolution_policy JiraManager.CUSTOM_FIELD_MAPPINGS
    [] "Bogus Field" (JsonVal.str "v")).2 rfl
  exact ⟨rfl, h.1, h.2⟩

/-- The typed shape of the epic looked up while validating a story's
epic-link. -/
structure RemoteIssueBrief where
  issuetypeName : String

/-- Outcome of `JiraManager.create_issue`: the result, whether the remote
`jira.create_issue` call was issued, and the fields payload handed to it. -/
structure CreateIssueOutcome where
  result : Except String Document
  createIssued : Bool
  sentFields : Option (List (String × JsonVal))

/-- The tail of `create_issue`: merge the translated caller custom fields
into the prepared fields dict and issue the remote create call.
`created` is the outcome of `jira.create_issue` plus the `get_issue`
refetch. -/
def finishCreateIssue (req : JiraIssueCreate)
    (mappings : List (String × String))
    (fields : List (String × JsonVal)) (created : Except String Document) :
    CreateIssueOutcome :=
  let fields :=
    if req.custom_fields.isEmpty then fields
    else
      (JiraManager._process_custom_fields mappings req.custom_fields).foldl
        (fun acc p => dictSet acc p.1 p.2) fields
  { result := created, createIssued := true, sentFields := some fields }

/-- `JiraManager.create_issue` from jira.py.  `project` is the truthiness
of `jira.project(project_key)`, `epicLookup` the `jira.issue(epic_link)`
collaborator, `created` the outcome of the remote create call plus the
final refetch; the surrounding try/except logs and re-raises. -/
def JiraManager.create_issue (req : JiraIssueCreate)
    (mappings : List (String × String)) (project : Except String Bool)
    (epicLookup : String → Except String (Option RemoteIssueBrief))
    (created : Except String Document) : CreateIssueOutcome :=
  match project with
  | Except.error e =>
      { result := Except.error e, createIssued := false, sentFields := none }
  | Except.ok false =>
      { result := Except.error ("Project " ++ req.project_key ++
          " does not exist")
        createIssued := false, sentFields := none }
  | Except.ok true =>
      let fields : List (String × JsonVal) :=
        [("project", JsonVal.obj [("key", JsonVal.str req.project_key)]),
         ("summary", JsonVal.str req.summary),
         ("description", JsonVal.str req.description),
         ("issuetype", JsonVal.obj [("name", JsonVal.str req.issue_type)])]
      if req.issue_type = "Epic" then
        let fields :=
          match JiraManager._get_custom_field_id mappings "Epic Name" with
          | some fid =>
              if fid ≠ "" then dictSet fields fid (JsonVal.str req.summary)
              else fields
          | none => fields
        finishCreateIssue req mappings fields created
      else if req.issue_type = "Story" ∧ pyTruthyStrOpt req.epic_link = true
      then
        let el := req.epic_link.getD ""
        match epicLookup el with
        | Except.error e =>
            { result := Except.error e, createIssued := false
              sentFields := none }
        | Except.ok none =>
            { result := Except.error ("Invalid epic link: " ++ el)
              createIssued := false, sentFields := none }
        | Except.ok (some epic) =>
            if epic.issuetypeName ≠ "Epic" then
              { result := Except.error ("Invalid epic link: " ++ el)
                createIssued := false, sentFields := none }
            else
              let fields :=
                match JiraManager._get_custom_field_id mappings "Epic Link"
                with
                | some fid =>
                    if fid ≠ "" then dictSet fields fid (JsonVal.str el)
                    else fields
                | none => fields
              finishCreateIssue req mappings fields created
      else
        finishCreateIssue req mappings fields created

/-- C8: for a Story carrying a (truthy) epic-link, the link is
re-validated against the remote system before any creation call: when the
referenced issue does not exist or its type is not Epic, the operation
fails with the invalid-epic-link error and no create call is issued; when
the remote lookup itself raises, the error propagates and no create call
is issued either. -/
theorem story_epic_link_validated (req : JiraIssueCreate)
    (mappings : List (String × String))
    (epicLookup : String → Except String (Option RemoteIssueBrief))
    (created : Except String Document) (el : String)
    (hty : req.issue_type = "Story") (hel : req.epic_link = some el)
    (hne : el ≠ "") :
    (epicLookup el = Except.ok none →
      (JiraManager.create_issue req mappings (Except.ok true) epicLookup
        created).result = Except.error ("Invalid epic link: " ++ el) ∧
      (JiraManager.create_issue req mappings (Except.ok true) epicLookup
        created).createIssued = false) ∧
    (∀ epic, epicLookup el = Except.ok (some epic) →
      epic.issuetypeName ≠ "Epic" →
      (JiraManager.create_issue req mappings (Except.ok true) epicLookup
        created).result = Except.error ("Invalid epic link: " ++ el) ∧
      (JiraManager.create_issue req mappings (Except.ok true) epicLookup
        created).createIssued = false) ∧
    (∀ e, epicLookup el = Except.error e →
      (JiraManager.create_issue req mappings (Except.ok true) epicLookup
        created).result = Except.error e ∧
      (JiraManager.create_issue req mappings (Except.ok true) epicLookup
        created).createIssued = false) := by
  have hstory : ¬(req.issue_type = "Epic") := by
    rw [hty]; decide
  have htruthy : pyTruthyStrOpt req.epic_link = true := by
    rw [hel]
    simp [pyTruthyStrOpt, hne]
  refine ⟨?_, ?_, ?_⟩
  · intro hlook
    constructor <;>
      simp [JiraManager.create_issue, hstory, hty, htruthy, hel, hlook,
        pyTruthyStrOpt, hne]
  · intro epic hlook hnotepic
    constructor <;>
      simp [JiraManager.create_issue, hstory, hty, htruthy, hel, hlook,
        hnotepic, pyTruthyStrOpt, hne]
  · intro e hlook
    constructor <;>
      simp [JiraManager.create_issue, hstory, hty, htruthy, hel, hlook,
        pyTruthyStrOpt, hne]

/-- Witness for C8 at a concrete input: a Story linking to "DEV-1" when
the remote lookup returns no such issue fails with the invalid-epic-link
error and issues no create call. -/
theorem story_epic_link_validated_witness :
    (JiraManager.create_issue ⟨"DEV", "S", "d", "Story", some "DEV-1", []⟩
      JiraManager.CUSTOM_FIELD_MAPPINGS (Except.ok true)
      (fun _ => Except.ok none) (Except.ok ⟨"", []⟩)).result =
      Except.error "Invalid epic link: DEV-1" ∧
    (JiraManager.create_issue ⟨"DEV", "S", "d", "Story", some "DEV-1", []⟩
      JiraManager.CUSTOM_FIELD_MAPPINGS (Except.ok true)
      (fun _ => Except.ok none) (Except.ok ⟨"", []⟩)).createIssued =
      false := by
  have h := (story_epic_link_validated
    ⟨"DEV", "S", "d", "Story", some "DEV-1", []⟩
    JiraManager.CUSTOM_FIELD_MAPPINGS (fun _ => Except.ok none)
    (Except.ok ⟨"", []⟩) "DEV-1" rfl rfl (by decide)).1 rfl
  exact h

/-- The typed shape of one CQL search hit consumed by
`ConfluenceManager.search`; `.get` accesses are modelled as options. -/
structure CqlHit where
  contentType : Option String
  contentId : String
  title : String
  containerTitle : Option String
  url : String
  lastModified : Option String
  excerpt : Option String

/-- The document built by `search` for a page-typed hit: the remote
excerpt is used verbatim as content. -/
def mkConfluenceSearchDoc (baseUrl : String) (h : CqlHit) (t : String) :
    Document :=
  { page_content := h.excerpt.getD ""
    metadata :=
      [("page_id", JsonVal.str h.contentId),
       ("title", JsonVal.str h.title),
       ("space", jsonOfOptStr h.containerTitle),
       ("url", JsonVal.str (baseUrl ++ h.url)),
       ("last_modified", jsonOfOptStr h.lastModified),
       ("type", JsonVal.str t)] }

/-- The result loop of `search`: a document per hit whose content type is
the string "page"; every other hit is skipped. -/
def confluenceSearchDocs (baseUrl : String) (results : List CqlHit) :
    List Document :=
  results.foldr
    (fun r acc =>
      match r.contentType with
      | some t => if t = "page" then mkConfluenceSearchDoc baseUrl r t :: acc
                  else acc
      | none => acc)
    []

/-- `ConfluenceManager.search` from confluence.py: the whole body is
wrapped in try/except — any raised error is logged and an empty list is
returned instead. -/
def ConfluenceManager.search (baseUrl : String)
    (remote : Except String (List CqlHit)) : List Document :=
  match remote with
  | Except.error _ => []
  | Except.ok results => confluenceSearchDocs baseUrl results

/-- The result loop keeps exactly the page-typed hits, in order. -/
theorem confluenceSearchDocs_eq (baseUrl : String) (hits : List CqlHit) :
    confluenceSearchDocs baseUrl hits =
      (hits.filter (fun h => h.contentType == some "page")).map
        (fun h => mkConfluenceSearchDoc baseUrl h "page") := by
  induction hits with
  | nil => rfl
  | cons x xs ih =>
      simp only [confluenceSearchDocs, List.foldr_cons] at ih ⊢
      cases hx : x.contentType with
      | none => simp [List.filter_cons, hx, ih]
      | some t =>
          by_cases ht : t = "page"
          · subst ht
            simp [List.filter_cons, hx, ih]
          · simp [List.filter_cons, hx, ht, ih]

/-- C9: a Confluence search produces a document only for hits whose
content type is "page" — the result list is exactly the page-typed hits in
order (so it can be shorter than the remote hit list), and every produced
document carries type metadata "page". -/
theorem confluence_search_pages_only (baseUrl : String)
    (hits : List CqlHit) :
    ConfluenceManager.search baseUrl (Except.ok hits) =
      (hits.filter (fun h => h.contentType == some "page")).map
        (fun h => mkConfluenceSearchDoc baseUrl h "page") ∧
    (ConfluenceManager.search baseUrl (Except.ok hits)).length ≤
      hits.length ∧
    (∀ d ∈ ConfluenceManager.search baseUrl (Except.ok hits),
      alookup d.metadata "type" = some (JsonVal.str "page")) := by
  have he : ConfluenceManager.search baseUrl (Except.ok hits) =
      (hits.filter (fun h => h.contentType == some "page")).map
        (fun h => mkConfluenceSearchDoc baseUrl h "page") :=
    confluenceSearchDocs_eq baseUrl hits
  refine ⟨he, ?_, ?_⟩
  · rw [he, List.length_map]
    exact List.length_filter_le _ _
  · intro d hd
    rw [he] at hd
    obtain ⟨h, _, rfl⟩ := List.mem_map.mp hd
    rfl

/-- Witness for C9 at a concrete input: of two hits (one page, one
comment) only the page hit yields a document, so one document from two
hits, and its type metadata is "page". -/
theorem confluence_search_pages_only_witness :
    (ConfluenceManager.search "https://c" (Except.ok
      [⟨some "page", "1", "A", some "Dev", "/x", some "t", some "e"⟩,
       ⟨some "comment", "2", "B", none, "/y", none, none⟩])).length = 1 ∧
    alookup (mkConfluenceSearchDoc "https://c"
      ⟨some "page", "1", "A", some "Dev", "/x", some "t", some "e"⟩
      "page").metadata "type" = some (JsonVal.str "page") := by
  have h := confluence_search_pages_only "https://c"
    [⟨some "page", "1", "A", some "Dev", "/x", some "t", some "e"⟩,
     ⟨some "comment", "2", "B", none, "/y", none, none⟩]
  refine ⟨by rw [h.1]; rfl, ?_⟩
  refine h.2.2 _ ?_
  rw [h.1]
  exact List.Mem.head _

/-- The typed shape of the page returned by
`confluence.get_page_by_title` (expand `body.storage,version`). -/
structure RemotePageByTitle where
  id : String
  title : String
  versionNumber : Option Int
  bodyStorageValue : String

/-- `ConfluenceManager.get_page_by_title` from confluence.py: the whole
body is wrapped in try/except returning None on any raised error.  Note
that `_clean_html_content` is not defined anywhere on `ConfluenceManager`,
so with `clean_html=True` (the default, and what the resource router
passes) the call raises `AttributeError` inside the try block and the
function returns None even for an existing page. -/
def ConfluenceManager.get_page_by_title (baseUrl space_key : String)
    (remote : Except String (Option RemotePageByTitle))
    (clean_html : Bool) : Option Document :=
  match remote with
  | Except.error _ => none
  | Except.ok none => none
  | Except.ok (some page) =>
      if clean_html then none
      else
        some
          { page_content := page.bodyStorageValue
            metadata :=
              [("page_id", JsonVal.str page.id),
               ("title", JsonVal.str page.title),
               ("version", jsonOfOptInt page.versionNumber),
               ("space_key", JsonVal.str space_key),
               ("url", JsonVal.str (baseUrl ++ "/wiki/spaces/" ++
                  space_key ++ "/pages/" ++ page.id))] }

/-- Worker for `str.split(sep)`: structural recursion over the
characters, collecting the current piece in reverse. -/
def pySplitAux (sep : Char) : List Char → List Char → List (List Char)
  | [], acc => [acc.reverse]
  | c :: rest, acc =>
      if c = sep then acc.reverse :: pySplitAux sep rest []
      else pySplitAux sep rest (c :: acc)

/-- Python `s.split(sep)` for a one-character separator: `""` yields
`[""]`, adjacent separators yield empty pieces. -/
def pySplitChar (s : String) (sep : Char) : List String :=
  (pySplitAux sep s.data []).map String.mk

/-- Python `s.startswith(pre)`. -/
def pyStartsWith (s pre : String) : Bool :=
  pre.data.isPrefixOf s.data

/-- The remote/manager outcomes consumed by one `read_resource` call. -/
structure ResourceEnv where
  spacePages : Except String (List Document)
  pageByTitle : Except String (Option RemotePageByTitle)
  projectIssues : Except String (List Document)
  issueDoc : Except String Document

/-- `read_resource` from server.py: dispatch on the URI scheme and path
shape.  `spacePages`, `projectIssues` and `issueDoc` stand for the
manager-call outcomes of the other branches; the page branch runs
`get_page_by_title` (with its default `clean_html=True`) on the supplied
remote outcome and reports not-found when it returns None. -/
def readResource (confluenceBaseUrl uri : String) (env : ResourceEnv) :
    Except String String :=
  if pyStartsWith uri "confluence://" then
    let parts := pySplitChar (pyReplace uri "confluence://" "") '/'
    if parts.length = 1 then
      match env.spacePages with
      | Except.error e => Except.error e
      | Except.ok documents =>
          Except.ok (String.intercalate "\n\n" (documents.map (fun doc =>
            "# " ++ pyStr ((alookup doc.metadata "title").getD JsonVal.null)
              ++ "\n\n" ++ doc.page_content ++ "\n---")))
    else if 3 ≤ parts.length ∧ parts.get? 1 = some "pages" then
      match ConfluenceManager.get_page_by_title confluenceBaseUrl
          (parts.getD 0 "") env.pageByTitle true with
      | none => Except.error ("Page not found: " ++ parts.getD 2 "")
      | some doc => Except.ok doc.page_content
    else Except.error ("Invalid resource URI: " ++ uri)
  else if pyStartsWith uri "jira://" then
    let parts := pySplitChar (pyReplace uri "jira://" "") '/'
    if parts.length = 1 then
      match env.projectIssues with
      | Except.error e => Except.error e
      | Except.ok issues =>
          Except.ok (String.intercalate "\n\n" (issues.map (fun issue =>
            "# " ++ pyStr ((alookup issue.metadata "key").getD JsonVal.null)
              ++ ": " ++
              pyStr ((alookup issue.metadata "title").getD JsonVal.null)
              ++ "\n\n" ++ issue.page_content ++ "\n---")))
    else if 3 ≤ parts.length ∧ parts.get? 1 = some "issues" then
      match env.issueDoc with
      | Except.error e => Except.error e
      | Except.ok issue => Except.ok issue.page_content
    else Except.error ("Invalid resource URI: " ++ uri)
  else Except.error ("Invalid resource URI: " ++ uri)

/-- C10: any exception raised during the remote fetch (or the content
processing) of `get_page_by_title` makes it return None, so the resource
router reports a not-found error for a `confluence://{space}/pages/{title}`
URI even when the underlying cause was a remote failure. -/
theorem page_by_title_failure_reads_as_not_found (e : String)
    (env : ResourceEnv) (baseUrl space_key : String) (ch : Bool)
    (h : env.pageByTitle = Except.error e) :
    ConfluenceManager.get_page_by_title baseUrl space_key
      (Except.error e) ch = none ∧
    readResource baseUrl "confluence://DEV/pages/Home" env =
      Except.error "Page not found: Home" := by
  obtain ⟨sp, pbt, pi, idoc⟩ := env
  simp only at h
  subst h
  exact ⟨rfl, rfl⟩

/-- Witness for C10 at a concrete input: a remote failure ("503") makes
the page lookup return None and the router answer "Page not found". -/
theorem page_by_title_failure_reads_as_not_found_witness :
    ConfluenceManager.get_page_by_title "https://c" "DEV"
      (Except.error "503") true = none ∧
    readResource "https://c" "confluence://DEV/pages/Home"
      ⟨Except.ok [], Except.error "503", Except.ok [],
        Except.ok ⟨"", []⟩⟩ =
      Except.error "Page not found: Home" := by
  exact page_by_title_failure_reads_as_not_found "503"
    ⟨Except.ok [], Except.error "503", Except.ok [], Except.ok ⟨"", []⟩⟩
    "https://c" "DEV" true rfl

/-- `ConfluenceManager.create_page` from confluence.py: validate the
space (truthiness of `confluence.get_space`), then create and refetch;
`created` is the outcome of that remote chain; try/except re-raises. -/
def ConfluenceManager.create_page (space : Except String Bool)
    (created : Except String Document) (space_key : String) :
    Except String Document :=
  match space with
  | Except.error e => Except.error e
  | Except.ok false =>
      Except.error ("Space " ++ space_key ++ " does not exist")
  | Except.ok true => created

/-- Python `d[k]`: the value, or a raised KeyError (whose `str` is the
quoted key). -/
def argGet (args : List (String × JsonVal)) (k : String) :
    Except String JsonVal :=
  match alookup args k with
  | some v => Except.ok v
  | none => Except.error ("\x27" ++ k ++ "\x27")

/-- The numeric limit argument when present; the tool schema declares it
as a number, and `int()` of a number is that number truncated — modelled
for integral inputs. -/
def argLimit (args : List (String × JsonVal)) : Option Int :=
  match alookup args "limit" with
  | some (JsonVal.num n) => some n
  | _ => none

/-- The `{"content": ..., "metadata": ...}` result shape shared by the
get/create/update tool branches. -/
def contentMetadataPayload (doc : Document) : JsonVal :=
  JsonVal.obj [("content", JsonVal.str doc.page_content),
               ("metadata", JsonVal.obj doc.metadata)]

/-- One entry of the `confluence_search` result list; missing metadata
keys raise KeyError as in the Python dict accesses. -/
def mkConfluenceSearchResult (doc : Document) : Except String JsonVal := do
  let pid ← argGet doc.metadata "page_id"
  let title ← argGet doc.metadata "title"
  let space ← argGet doc.metadata "space"
  let url ← argGet doc.metadata "url"
  let lm ← argGet doc.metadata "last_modified"
  let ty ← argGet doc.metadata "type"
  Except.ok (JsonVal.obj
    [("page_id", pid), ("title", title), ("space", space), ("url", url),
     ("last_modified", lm), ("type", ty),
     ("excerpt", JsonVal.str doc.page_content)])

/-- One entry of the `jira_search` result list, with the 500-character
excerpt truncation. -/
def mkJiraSearchResult (doc : Document) : Except String JsonVal := do
  let key ← argGet doc.metadata "key"
  let title ← argGet doc.metadata "title"
  let ty ← argGet doc.metadata "type"
  let status ← argGet doc.metadata "status"
  let created ← argGet doc.metadata "created_date"
  let priority ← argGet doc.metadata "priority"
  let link ← argGet doc.metadata "link"
  Except.ok (JsonVal.obj
    [("key", key), ("title", title), ("type", ty), ("status", status),
     ("created_date", created), ("priority", priority), ("link", link),
     ("excerpt", JsonVal.str (jiraSearchExcerpt doc.page_content))])

/-- One entry of the `jira_get_project_issues` result list. -/
def mkProjectIssueResult (doc : Document) : Except String JsonVal := do
  let key ← argGet doc.metadata "key"
  let title ← argGet doc.metadata "title"
  let ty ← argGet doc.metadata "type"
  let status ← argGet doc.metadata "status"
  let created ← argGet doc.metadata "created_date"
  let link ← argGet doc.metadata "link"
  Except.ok (JsonVal.obj
    [("key", key), ("title", title), ("type", ty), ("status", status),
     ("created_date", created), ("link", link)])

/-- One entry of the `confluence_get_comments` result list. -/
def mkCommentResult (doc : Document) : Except String JsonVal := do
  let author ← argGet doc.metadata "author_name"
  let created ← argGet doc.metadata "last_modified"
  Except.ok (JsonVal.obj
    [("author", author), ("created", created),
     ("content", JsonVal.str doc.page_content)])

/-- The remote/manager collaborator outcomes consumed by one `call_tool`
invocation, one input per remote call site. -/
structure ToolEnv where
  confluenceBaseUrl : String
  jiraBaseUrl : String
  cql : JsonVal → Int → Except String (List CqlHit)
  getPage : JsonVal → Except String (RemotePageFull × (String × String))
  getSpace : JsonVal → Except String Bool
  createdPage : Except String Document
  updatePageFetch : Except String (Option Int)
  updatePageDoc : Document
  pageComments : JsonVal → Except String (List Document)
  mappings : List (String × String)
  cleanText : String → String
  issueFetch : JsonVal → Except String RemoteIssueFields
  project : Except String Bool
  epicLookup : String → Except String (Option RemoteIssueBrief)
  createdIssue : Except String Document
  updateIssueCurrent : Except String Bool
  updateIssueStatus : Nat
  updateIssueRespText : String
  updateIssueRefreshed : Except String Document
  jiraSearch : JsonVal → JsonVal → Int → Except String (List Document)
  projectIssues : JsonVal → Int → Except String (List Document)

/-- The body of the `try` block of `call_tool` in server.py: dispatch on
the tool name, run the operation, end with the unknown-tool error.  An
`Except.error` is an exception travelling to the handler. -/
def callToolInner (name : String) (args : List (String × JsonVal))
    (env : ToolEnv) : Except String (List JsonVal) :=
  if name = "confluence_search" then
    let limit := confluenceSearchLimit (argLimit args)
    do
      let q ← argGet args "query"
      let documents := ConfluenceManager.search env.confluenceBaseUrl
        (env.cql q limit)
      let results ← documents.mapM mkConfluenceSearchResult
      Except.ok [JsonVal.arr results]
  else if name = "confluence_get_page" then do
    let pid ← argGet args "page_id"
    let pageAndProcessed ← env.getPage pid
    let doc := ConfluenceManager.get_page_content env.confluenceBaseUrl
      (pyStr pid) pageAndProcessed.1 pageAndProcessed.2 true
    let include_metadata :=
      ((alookup args "include_metadata").map pyTruthy).getD true
    Except.ok [if include_metadata then contentMetadataPayload doc
               else JsonVal.obj [("content", JsonVal.str doc.page_content)]]
  else if name = "confluence_create_page" then do
    let sk ← argGet args "space_key"
    let _title ← argGet args "title"
    let _content ← argGet args "content"
    let doc ← ConfluenceManager.create_page (env.getSpace sk)
      env.createdPage (pyStr sk)
    Except.ok [contentMetadataPayload doc]
  else if name = "confluence_update_page" then do
    let pid ← argGet args "page_id"
    let title ← argGet args "title"
    let content ← argGet args "content"
    let ver ← argGet args "version"
    let verInt ← (match ver with
      | JsonVal.num n => Except.ok n
      | _ => Except.error "version must be a number")
    let doc ← (ConfluenceManager.update_page
      ⟨pyStr pid, pyStr title, pyStr content, verInt⟩
      env.updatePageFetch env.updatePageDoc).result
    Except.ok [contentMetadataPayload doc]
  else if name = "confluence_get_comments" then do
    let pid ← argGet args "page_id"
    let comments ← env.pageComments pid
    let formatted ← comments.mapM mkCommentResult
    Except.ok [JsonVal.arr formatted]
  else if name = "jira_get_issue" then do
    let key ← argGet args "issue_key"
    let doc ← JiraManager.get_issue env.jiraBaseUrl env.mappings
      env.cleanText (pyStr key) (env.issueFetch key)
    Except.ok [contentMetadataPayload doc]
  else if name = "jira_create_epic" then do
    let pk ← argGet args "project_key"
    let sm ← argGet args "summary"
    let desc := ((alookup args "description").map pyStr).getD ""
    let cf : List (String × JsonVal) :=
      match alookup args "custom_fields" with
      | some (JsonVal.obj o) => o
      | _ => []
    let req ← mkJiraIssueCreate (pyStr pk) (pyStr sm) desc "Epic" none
      (some cf)
    let doc ← (JiraManager.create_issue req env.mappings env.project
      env.epicLookup env.createdIssue).result
    Except.ok [contentMetadataPayload doc]
  else if name = "jira_create_story" then do
    let pk ← argGet args "project_key"
    let sm ← argGet args "summary"
    let desc := ((alookup args "description").map pyStr).getD ""
    let el : Option String :=
      match alookup args "epic_link" with
      | some (JsonVal.str s) => some s
      | _ => none
    let cf : List (String × JsonVal) :=
      match alookup args "custom_fields" with
      | some (JsonVal.obj o) => o
      | _ => []
    let req ← mkJiraIssueCreate (pyStr pk) (pyStr sm) desc "Story" el
      (some cf)
    let doc ← (JiraManager.create_issue req env.mappings env.project
      env.epicLookup env.createdIssue).result
    Except.ok [contentMetadataPayload doc]
  else if name = "jira_update_issue" then do
    let key ← argGet args "issue_key"
    let fieldsArg ← argGet args "fields"
    let fields : List (String × JsonVal) :=
      match fieldsArg with
      | JsonVal.obj o => o
      | _ => []
    let doc ← (JiraManager.update_issue ⟨pyStr key, fields⟩ env.mappings
      env.updateIssueCurrent env.updateIssueStatus env.updateIssueRespText
      env.updateIssueRefreshed).result
    Except.ok [contentMetadataPayload doc]
  else if name = "jira_search" then
    let limit := jiraSearchLimit (argLimit args)
    do
      let jql ← argGet args "jql"
      let flds := (alookup args "fields").getD (JsonVal.str "*all")
      let documents ← env.jiraSearch jql flds limit
      let results ← documents.mapM mkJiraSearchResult
      Except.ok [JsonVal.arr results]
  else if name = "jira_get_project_issues" then
    let limit := jiraGetProjectIssuesLimit (argLimit args)
    do
      let pk ← argGet args "project_key"
      let documents ← env.projectIssues pk limit
      let results ← documents.mapM mkProjectIssueResult
      Except.ok [JsonVal.arr results]
  else Except.error ("Unknown tool: " ++ name)

/-- `call_tool` from server.py: the try/except boundary — any exception
from the dispatch body is logged and re-raised as one uniform
`RuntimeError` carrying the original message. -/
def callTool (name : String) (args : List (String × JsonVal))
    (env : ToolEnv) : Except String (List JsonVal) :=
  match callToolInner name args env with
  | Except.ok r => Except.ok r
  | Except.error e => Except.error ("Tool execution failed: " ++ e)

/-- Inversion for a successful `Except` bind. -/
theorem bind_eq_ok {α β : Type} {x : Except String α}
    {f : α → Except String β} {r : β} (h : (x >>= f) = Except.ok r) :
    ∃ a, x = Except.ok a ∧ f a = Except.ok r := by
  cases x with
  | error e => simp [Bind.bind, Except.bind] at h
  | ok a => exact ⟨a, rfl, by simpa [Bind.bind, Except.bind] using h⟩

/-- Every successful branch of the dispatch body returns exactly one
payload. -/
theorem callToolInner_singleton (name : String)
    (args : List (String × JsonVal)) (env : ToolEnv)
    (r : List JsonVal) (hr : callToolInner name args env = Except.ok r) :
    ∃ payload, r = [payload] := by
  unfold callToolInner at hr
  by_cases h1 : name = "confluence_search"
  · rw [if_pos h1] at hr
    repeat obtain ⟨_, _, hr⟩ := bind_eq_ok hr
    cases hr
    exact ⟨_, rfl⟩
  · rw [if_neg h1] at hr
    by_cases h2 : name = "confluence_get_page"
    · rw [if_pos h2] at hr
      repeat obtain ⟨_, _, hr⟩ := bind_eq_ok hr
      cases hr
      exact ⟨_, rfl⟩
    · rw [if_neg h2] at hr
      by_cases h3 : name = "confluence_create_page"
      · rw [if_pos h3] at hr
        repeat obtain ⟨_, _, hr⟩ := bind_eq_ok hr
        cases hr
        exact ⟨_, rfl⟩
      · rw [if_neg h3] at hr
        by_cases h4 : name = "confluence_update_page"
        · rw [if_pos h4] at hr
          repeat obtain ⟨_, _, hr⟩ := bind_eq_ok hr
          cases hr
          exact ⟨_, rfl⟩
        · rw [if_neg h4] at hr
          by_cases h5 : name = "confluence_get_comments"
          · rw [if_pos h5] at hr
            repeat obtain ⟨_, _, hr⟩ := bind_eq_ok hr
            cases hr
            exact ⟨_, rfl⟩
          · rw [if_neg h5] at hr
            by_cases h6 : name = "jira_get_issue"
            · rw [if_pos h6] at hr
              repeat obtain ⟨_, _, hr⟩ := bind_eq_ok hr
              cases hr
              exact ⟨_, rfl⟩
            · rw [if_neg h6] at hr
              by_cases h7 : name = "jira_create_epic"
              · rw [if_pos h7] at hr
                repeat obtain ⟨_, _, hr⟩ := bind_eq_ok hr
                cases hr
                exact ⟨_, rfl⟩
              · rw [if_neg h7] at hr
                by_cases h8 : name = "jira_create_story"
                · rw [if_pos h8] at hr
                  repeat obtain ⟨_, _, hr⟩ := bind_eq_ok hr
                  cases hr
                  exact ⟨_, rfl⟩
                · rw [if_neg h8] at hr
                  by_cases h9 : name = "jira_update_issue"
                  · rw [if_pos h9] at hr
                    repeat obtain ⟨_, _, hr⟩ := bind_eq_ok hr
                    cases hr
                    exact ⟨_, rfl⟩
                  · rw [if_neg h9] at hr
                    by_cases h10 : name = "jira_search"
                    · rw [if_pos h10] at hr
                      repeat obtain ⟨_, _, hr⟩ := bind_eq_ok hr
                      cases hr
                      exact ⟨_, rfl⟩
                    · rw [if_neg h10] at hr
                      by_cases h11 : name = "jira_get_project_issues"
                      · rw [if_pos h11] at hr
                        repeat obtain ⟨_, _, hr⟩ := bind_eq_ok hr
                        cases hr
                        exact ⟨_, rfl⟩
                      · rw [if_neg h11] at hr
                        cases hr

/-- A `ToolEnv` whose Confluence search collaborator raises. -/
def failingSearchEnv : ToolEnv :=
  { confluenceBaseUrl := "https://c"
    jiraBaseUrl := "https://j"
    cql := fun _ _ => Except.error "remote down"
    getPage := fun _ => Except.error "remote down"
    getSpace := fun _ => Except.ok true
    createdPage := Except.ok ⟨"", []⟩
    updatePageFetch := Except.ok (some 1)
    updatePageDoc := ⟨"", []⟩
    pageComments := fun _ => Except.ok []
    mappings := JiraManager.CUSTOM_FIELD_MAPPINGS
    cleanText := id
    issueFetch := fun _ => Except.error "remote down"
    project := Except.ok true
    epicLookup := fun _ => Except.ok none
    createdIssue := Except.ok ⟨"", []⟩
    updateIssueCurrent := Except.ok true
    updateIssueStatus := 204
    updateIssueRespText := ""
    updateIssueRefreshed := Except.ok ⟨"", []⟩
    jiraSearch := fun _ _ _ => Except.error "remote down"
    projectIssues := fun _ _ => Except.ok [] }

/-- Counterexample to C4 as stated, in both halves of the claim: a
`confluence_search` tool call whose remote CQL call fails is answered
with a successful empty payload (the empty list serialized), not a raised
failure — `ConfluenceManager.search` swallows the exception, so an empty
result stands in for an error; and a resource read whose manager call
fails propagates the failure raw — `read_resource` has no try/except, so
the error is not re-raised as the uniform execution-failure. -/
theorem search_failure_swallowed_counterexample :
    callTool "confluence_search" [("query", JsonVal.str "type=page")]
      failingSearchEnv = Except.ok [JsonVal.arr []] ∧
    (callTool "confluence_search" [("query", JsonVal.str "type=page")]
      failingSearchEnv).isOk = true ∧
    readResource "https://c" "confluence://DEV"
      ⟨Except.error "remote down", Except.ok none, Except.ok [],
        Except.ok ⟨"", []⟩⟩ = Except.error "remote down" ∧
    (Except.error "remote down" : Except String String) ≠
      Except.error "Tool execution failed: remote down" := by
  refine ⟨rfl, rfl, rfl, ?_⟩
  intro h
  injection h with h2
  exact absurd h2 (by decide)

/-- C4 (amended): every failure that propagates to the `call_tool`
boundary is re-raised as one uniform execution-failure carrying the
original message, every tool success is exactly one serialized payload,
and no branch returns a partial success — with two deviations from the
claim: `ConfluenceManager.search` catches all exceptions itself and
returns the empty list, so a failing Confluence search never reaches the
boundary and is served as an empty success payload instead; and the
resource router has no such boundary at all — a `read_resource` failure
(here: the space-listing and single-issue branches) propagates raw,
without the uniform wrapping. -/
theorem tool_failures_wrapped_uniformly (name : String)
    (args : List (String × JsonVal)) (env : ToolEnv) :
    (∀ e, callToolInner name args env = Except.error e →
      callTool name args env =
        Except.error ("Tool execution failed: " ++ e)) ∧
    (∀ r, callToolInner name args env = Except.ok r →
      callTool name args env = Except.ok r ∧ ∃ payload, r = [payload]) ∧
    (∀ e baseUrl, ConfluenceManager.search baseUrl (Except.error e) = []) ∧
    (∀ e (renv : ResourceEnv) baseUrl,
      renv.spacePages = Except.error e →
      readResource baseUrl "confluence://DEV" renv = Except.error e) ∧
    (∀ e (renv : ResourceEnv) baseUrl,
      renv.issueDoc = Except.error e →
      readResource baseUrl "jira://PROJ/issues/PROJ-1" renv =
        Except.error e) := by
  refine ⟨?_, ?_, ?_, ?_, ?_⟩
  · intro e he
    unfold callTool
    rw [he]
  · intro r hr
    refine ⟨?_, callToolInner_singleton name args env r hr⟩
    unfold callTool
    rw [hr]
  · intro e baseUrl
    rfl
  · intro e renv baseUrl hsp
    obtain ⟨sp, pbt, pi, idoc⟩ := renv
    simp only at hsp
    subst hsp
    rfl
  · intro e renv baseUrl hid
    obtain ⟨sp, pbt, pi, idoc⟩ := renv
    simp only at hid
    subst hid
    rfl

/-- Witness for C4 (amended) at concrete inputs: an unknown tool name
raises inside the dispatch body and is re-raised wrapped at the boundary,
a successful branch returns one payload, and a resource read whose
manager call fails answers with the raw, unwrapped error. -/
theorem tool_failures_wrapped_uniformly_witness :
    callTool "no_such_tool" [] failingSearchEnv =
      Except.error "Tool execution failed: Unknown tool: no_such_tool" ∧
    (∃ payload, [JsonVal.arr ([] : List JsonVal)] = [payload]) ∧
    readResource "https://c" "confluence://DEV"
      ⟨Except.error "boom", Except.ok none, Except.ok [],
        Except.ok ⟨"", []⟩⟩ = Except.error "boom" ∧
    readResource "https://j" "jira://PROJ/issues/PROJ-1"
      ⟨Except.ok [], Except.ok none, Except.ok [],
        Except.error "boom"⟩ = Except.error "boom" := by
  have h := tool_failures_wrapped_uniformly "no_such_tool" []
    failingSearchEnv
  have h2 := tool_failures_wrapped_uniformly "confluence_search"
    [("query", JsonVal.str "type=page")] failingSearchEnv
  refine ⟨h.1 "Unknown tool: no_such_tool" rfl,
    (h2.2.1 [JsonVal.arr []] rfl).2, ?_, ?_⟩
  · exact h.2.2.2.1 "boom"
      ⟨Except.error "boom", Except.ok none, Except.ok [],
        Except.ok ⟨"", []⟩⟩ "https://c" rfl
  · exact h.2.2.2.2 "boom"
      ⟨Except.ok [], Except.ok none, Except.ok [],
        Except.error "boom"⟩ "https://j" rfl
